import Mathlib

/-!
Shallow embedding of `dynamo__custom_eval_frame`
(`src/torch/csrc/dynamo/eval_frame_cpp.cpp`), the adaptive call-frame
dispatch cache of this repository, together with proofs of its dispatch
properties.

The C++ function is a straight-line decision procedure over:
  * the frame's `throw_flag`,
  * the caller-supplied interception callback (a Python object that is
    either `Py_None` = "disabled", `Py_False` = "run only", or a real
    callable),
  * the per-code-object `ExtraState` (cache entry list, opaque frame
    state, `FrameExecStrategy`),
  * the result of the external guard `lookup`, and
  * the result of the external compiler callback `dynamo_call_callback`.

The two external collaborators (`lookup` and the compiler callback) are
out of scope per the spec; the embedding takes their results as oracle
fields of the input.  Side effects performed by the function — writes to
the process-wide eval-frame callback register (`eval_frame_callback_set`),
the guard lookup call, the compiler callback call, default / custom frame
evaluation, raising the skip-guard diagnostic error, and
`clear_old_frame_if_python_312_plus` — are recorded, in program order, as
an event trace, so that temporal claims (bracketing of the lookup,
never-invoked claims, restore discipline) can be stated over the trace.
-/

namespace EvalFrame

/-- Execution-strategy action, as in the C++ `FrameAction` enum. -/
inductive Action
  | DEFAULT
  | SKIP
  | RUN_ONLY
deriving DecidableEq, Repr

/-- The `FrameExecStrategy` pair `(cur_action, recursive_action)`. -/
structure FrameExecStrategy where
  cur_action : Action
  recursive_action : Action
deriving DecidableEq, Repr

/-- Value of the process-wide interception-callback register: `Py_None`
(the "disabled" sentinel), `Py_False` (the "run only" sentinel), or a
real callable identified by an opaque id. -/
inductive Callback
  | pyNone
  | pyFalse
  | custom (id : Nat)
deriving DecidableEq, Repr

/-- One cache entry: guard predicate (opaque id — guard semantics live in
the external `lookup` collaborator), specialized code object (opaque id),
and its human-readable trace label. -/
structure CacheEntry where
  guard_id : Nat
  code : Nat
  trace_label : String
deriving DecidableEq, Repr

/-- The per-code-object `ExtraState`: ordered cache entries
(most-recently-installed first), the opaque pass-through frame state, and
the execution strategy. -/
structure ExtraState where
  cache_entry_list : List CacheEntry
  frame_state : Nat
  strategy : FrameExecStrategy
deriving DecidableEq, Repr

/-- Modelled from the spec: `init_and_set_extra_state` is declared but not
defined under `src/`; per the spec a routine's state starts with an empty
cache and the initial strategy `(DEFAULT, DEFAULT)`. -/
def initExtraState : ExtraState :=
  ⟨[], 0, ⟨.DEFAULT, .DEFAULT⟩⟩

/-- Result of the external guard `lookup` collaborator: a hard failure
(`maybe_cached_code == nullptr`), a cache miss (`Py_None`), or a hit
carrying the cached code object and its trace label. -/
inductive LookupResult
  | fail
  | miss
  | hit (code : Nat) (trace_label : String)
deriving DecidableEq, Repr

/-- Result of `dynamo_call_callback`: internal failure (`nullptr`), the
`skip_code_recursive_flag` sentinel, the `cache_limit_hit_flag` sentinel,
`Py_None` ("no specialization"), or a concrete compiled result from which
`create_cache_entry` builds a cache entry. -/
inductive CallbackResult
  | failure
  | skipCodeRecursive
  | cacheLimitHit
  | pyNone
  | compiled (guard_id : Nat) (code : Nat) (trace_label : String)
deriving DecidableEq, Repr

/-- Observable side effects of one dispatch, in program order. -/
inductive Event
  | setCallback (cb : Callback)
  | lookupCall
  | callCompiler
  | evalDefaultCall
  | evalCustomCall
  | clearOldFrame
  | raiseError
deriving DecidableEq, Repr

/-- Which terminal evaluation the dispatch performed: default bytecode
execution, execution of a specialized code object (with its trace label),
or failure propagation (`eval_result` stays `nullptr`). -/
inductive EvalOutcome
  | defaultRun
  | customRun (code : Nat) (trace_label : String)
  | failed
deriving DecidableEq, Repr

/-- One invocation's inputs: the frame's `throw_flag`, the caller-supplied
callback, the global `is_skip_guard_eval_unsafe` stance, and the oracle
results the two external collaborators would return if consulted. -/
structure DispatchInput where
  throw_flag : Bool
  callback : Callback
  skip_guard_eval_stance : Bool
  lookup_result : LookupResult
  callback_result : CallbackResult
deriving DecidableEq, Repr

/-- One invocation's outputs: the evaluation outcome, the routine's
(possibly created or mutated) extra state, the side-effect trace, and the
final value of the local `recursive_callback` variable. -/
structure DispatchOutput where
  outcome : EvalOutcome
  extra : Option ExtraState
  events : List Event
  recursive_callback : Callback
deriving DecidableEq, Repr

/-- Events of the `eval_default` exit function: set the register to the
recursive callback, run default evaluation, and restore the register to
the caller-supplied callback only when the two differ. -/
def evalDefaultEvents (callback rc : Callback) : List Event :=
  [.setCallback rc, .evalDefaultCall] ++
    (if callback = rc then [] else [.setCallback callback])

/-- Events of the `eval_custom` exit function: same save/restore
discipline as `eval_default`, then `clear_old_frame_if_python_312_plus`. -/
def evalCustomEvents (callback rc : Callback) : List Event :=
  [.setCallback rc, .evalCustomCall] ++
    (if callback = rc then [] else [.setCallback callback]) ++
    [.clearOldFrame]

/-- Shallow embedding of `dynamo__custom_eval_frame`
(`eval_frame_cpp.cpp`, lines 12-247), branch for branch:
throw short-circuit; the `callback == Py_False && extra == nullptr` fast
path; lazy `ExtraState` creation; recursive-callback forcing when
`cur_action != DEFAULT`; the `SKIP` short-circuit; guard lookup under a
`Py_None` register; then the miss handling (skip-guard diagnostic,
run-only default, or the five compiler-callback result cases). -/
def dynamo__custom_eval_frame (inp : DispatchInput)
    (extra0 : Option ExtraState) : DispatchOutput :=
  if inp.throw_flag then
    ⟨.defaultRun, extra0, [.evalDefaultCall], inp.callback⟩
  else if inp.callback = .pyFalse ∧ extra0 = none then
    ⟨.defaultRun, extra0, evalDefaultEvents inp.callback inp.callback,
      inp.callback⟩
  else
    let extra := extra0.getD initExtraState
    let strategy := extra.strategy
    let rc0 : Callback :=
      if strategy.cur_action ≠ .DEFAULT then
        if strategy.recursive_action = .SKIP then .pyNone
        else if strategy.recursive_action = .RUN_ONLY then .pyFalse
        else inp.callback
      else inp.callback
    if strategy.cur_action = .SKIP then
      ⟨.defaultRun, some extra, evalDefaultEvents inp.callback rc0, rc0⟩
    else
      let pre : List Event := [.setCallback .pyNone, .lookupCall]
      match inp.lookup_result with
      | .fail =>
          ⟨.failed, some extra, pre ++ [.clearOldFrame], rc0⟩
      | .hit code t =>
          ⟨.customRun code t, some extra,
            pre ++ evalCustomEvents inp.callback rc0, rc0⟩
      | .miss =>
          if inp.skip_guard_eval_stance then
            ⟨.failed, some extra, pre ++ [.raiseError, .clearOldFrame], rc0⟩
          else if strategy.cur_action = .RUN_ONLY ∨ inp.callback = .pyFalse then
            ⟨.defaultRun, some extra,
              pre ++ evalDefaultEvents inp.callback rc0, rc0⟩
          else
            match inp.callback_result with
            | .failure =>
                ⟨.failed, some extra,
                  pre ++ [.callCompiler, .clearOldFrame], rc0⟩
            | .skipCodeRecursive =>
                let rc1 : Callback :=
                  if strategy.recursive_action = .DEFAULT then .pyNone
                  else rc0
                ⟨.defaultRun, some { extra with strategy := ⟨.SKIP, .SKIP⟩ },
                  pre ++ [.callCompiler] ++ evalDefaultEvents inp.callback rc1,
                  rc1⟩
            | .cacheLimitHit =>
                let rc1 : Callback :=
                  if strategy.recursive_action = .DEFAULT then .pyFalse
                  else rc0
                ⟨.defaultRun,
                  some { extra with strategy := ⟨.RUN_ONLY, .RUN_ONLY⟩ },
                  pre ++ [.callCompiler] ++ evalDefaultEvents inp.callback rc1,
                  rc1⟩
            | .compiled g c t =>
                ⟨.customRun c t,
                  some { extra with
                    cache_entry_list := ⟨g, c, t⟩ :: extra.cache_entry_list },
                  pre ++ [.callCompiler] ++ evalCustomEvents inp.callback rc0,
                  rc0⟩
            | .pyNone =>
                ⟨.defaultRun,
                  some { extra with strategy := ⟨.SKIP, .DEFAULT⟩ },
                  pre ++ [.callCompiler] ++ evalDefaultEvents inp.callback rc0,
                  rc0⟩

/-- Iterated dispatch: thread the routine's extra state through a sequence
of invocations, concatenating the traces. -/
def runCalls (inps : List DispatchInput) (extra0 : Option ExtraState) :
    Option ExtraState × List Event :=
  match inps with
  | [] => (extra0, [])
  | inp :: rest =>
      let out := dynamo__custom_eval_frame inp extra0
      let r := runCalls rest out.extra
      (r.1, out.events ++ r.2)

/-- Strategy held in an optional extra state (absent state behaves as the
initial `(DEFAULT, DEFAULT)` strategy). -/
def stratOf : Option ExtraState → FrameExecStrategy
  | none => ⟨.DEFAULT, .DEFAULT⟩
  | some e => e.strategy

/-- Cache entries held in an optional extra state. -/
def cacheOf : Option ExtraState → List CacheEntry
  | none => []
  | some e => e.cache_entry_list

/-- Value of the callback register after replaying a trace from a given
initial register value. -/
def regAfter : Callback → List Event → Callback
  | _, .setCallback c :: tr => regAfter c tr
  | cur, _ :: tr => regAfter cur tr
  | cur, [] => cur

/-- Replays a trace and checks that the callback register holds the
disabled sentinel `Py_None` at the moment of every guard-lookup call. -/
def regOKDuringLookup : Callback → List Event → Bool
  | _, .setCallback c :: tr => regOKDuringLookup c tr
  | cur, .lookupCall :: tr => (cur == .pyNone) && regOKDuringLookup cur tr
  | cur, _ :: tr => regOKDuringLookup cur tr
  | _, [] => true

/-- Replays a trace and checks that the callback register holds `tgt` at
the moment every default or custom frame evaluation starts. -/
def regBeforeEvalsOK : Callback → Callback → List Event → Bool
  | tgt, _, .setCallback c :: tr => regBeforeEvalsOK tgt c tr
  | tgt, cur, .evalDefaultCall :: tr =>
      (cur == tgt) && regBeforeEvalsOK tgt cur tr
  | tgt, cur, .evalCustomCall :: tr =>
      (cur == tgt) && regBeforeEvalsOK tgt cur tr
  | tgt, cur, _ :: tr => regBeforeEvalsOK tgt cur tr
  | _, _, [] => true


set_option linter.unreachableTactic false
set_option linter.unusedTactic false

/-- Helper: a routine whose stored `cur_action` is not `DEFAULT` (i.e. `SKIP`
or `RUN_ONLY`) has its extra state left untouched by a dispatch, and the
compiler callback is not invoked: every strategy mutation sits in the
compiler-result branch, which is unreachable in these modes. -/
theorem extra_and_trace_of_cur_ne_default (inp : DispatchInput) (e : ExtraState)
    (h : e.strategy.cur_action ≠ .DEFAULT) :
    (dynamo__custom_eval_frame inp (some e)).extra = some e ∧
    Event.callCompiler ∉ (dynamo__custom_eval_frame inp (some e)).events := by
  rcases inp with ⟨tf, cb, sg, lr, cr⟩
  rcases e with ⟨ces, fs, ⟨ca, ra⟩⟩
  cases tf <;> cases ca <;> cases lr <;> cases sg <;>
    simp_all [dynamo__custom_eval_frame, evalDefaultEvents, evalCustomEvents] <;>
    split_ifs <;> simp_all

/-- Helper: a dispatch whose supplied callback is the run-only sentinel
`Py_False` leaves the extra state exactly as it found it (in particular the
fast path creates none) and never invokes the compiler callback. -/
theorem extra_and_trace_of_pyFalse (inp : DispatchInput) (x : Option ExtraState)
    (h : inp.callback = .pyFalse) :
    (dynamo__custom_eval_frame inp x).extra = x ∧
    Event.callCompiler ∉ (dynamo__custom_eval_frame inp x).events := by
  rcases inp with ⟨tf, cb, sg, lr, cr⟩
  subst h
  rcases x with _ | ⟨ces, fs, ⟨ca, ra⟩⟩
  · cases tf <;> cases lr <;> cases sg <;>
      simp_all [dynamo__custom_eval_frame, evalDefaultEvents, evalCustomEvents] <;>
      split_ifs <;> simp_all
  · cases tf <;> cases ca <;> cases lr <;> cases sg <;>
      simp_all [dynamo__custom_eval_frame, evalDefaultEvents, evalCustomEvents] <;>
      split_ifs <;> simp_all

/-- Helper: across any sequence of calls, a routine whose `cur_action` is not
`DEFAULT` keeps its extra state unchanged and the compiler is never invoked. -/
theorem runCalls_frozen_of_cur_ne_default (inps : List DispatchInput)
    (e : ExtraState) (h : e.strategy.cur_action ≠ .DEFAULT) :
    (runCalls inps (some e)).1 = some e ∧
    Event.callCompiler ∉ (runCalls inps (some e)).2 := by
  induction inps with
  | nil => simp [runCalls]
  | cons inp rest ih =>
      have h1 := extra_and_trace_of_cur_ne_default inp e h
      simp [runCalls, h1.1, h1.2, ih.1, ih.2]

/-- Helper: across any sequence of calls all made with the run-only sentinel
callback, the extra state is unchanged and the compiler is never invoked. -/
theorem runCalls_no_compile_of_all_pyFalse (inps : List DispatchInput)
    (x : Option ExtraState)
    (h : ∀ inp ∈ inps, DispatchInput.callback inp = .pyFalse) :
    (runCalls inps x).1 = x ∧
    Event.callCompiler ∉ (runCalls inps x).2 := by
  induction inps generalizing x with
  | nil => simp [runCalls]
  | cons inp rest ih =>
      have h1 := extra_and_trace_of_pyFalse inp x (h inp (by simp))
      have h2 := ih x (fun i hi => h i (by simp [hi]))
      simp [runCalls, h1.1, h1.2, h2.1, h2.2]

/-- Helper: a restore tail (empty, or a single restore of the caller-supplied
callback) contains no lookup call. -/
theorem regOKDuringLookup_restoreTail (c cb d : Callback) :
    regOKDuringLookup c (if cb = d then [] else [Event.setCallback cb]) = true := by
  split_ifs <;> simp [regOKDuringLookup]

/-- Helper: a restore tail contains no frame evaluation. -/
theorem regBeforeEvalsOK_restoreTail (tgt c cb d : Callback) :
    regBeforeEvalsOK tgt c (if cb = d then [] else [Event.setCallback cb]) = true := by
  split_ifs <;> simp [regBeforeEvalsOK]

/-- Helper: the `eval_default` block contains no lookup call. -/
theorem regOKDuringLookup_evalDefault (c cb rc : Callback) :
    regOKDuringLookup c (evalDefaultEvents cb rc) = true := by
  unfold evalDefaultEvents
  split_ifs <;> simp [regOKDuringLookup]

/-- Helper: the `eval_custom` block contains no lookup call. -/
theorem regOKDuringLookup_evalCustom (c cb rc : Callback) :
    regOKDuringLookup c (evalCustomEvents cb rc) = true := by
  unfold evalCustomEvents
  split_ifs <;> simp [regOKDuringLookup]

/-- Helper: in the `eval_default` block the register holds the recursive
callback when the evaluation starts. -/
theorem regBeforeEvalsOK_evalDefault (c cb rc : Callback) :
    regBeforeEvalsOK rc c (evalDefaultEvents cb rc) = true := by
  unfold evalDefaultEvents
  split_ifs <;> simp [regBeforeEvalsOK]

/-- Helper: in the `eval_custom` block the register holds the recursive
callback when the evaluation starts. -/
theorem regBeforeEvalsOK_evalCustom (c cb rc : Callback) :
    regBeforeEvalsOK rc c (evalCustomEvents cb rc) = true := by
  unfold evalCustomEvents
  split_ifs <;> simp [regBeforeEvalsOK]

/-- C1: on a genuine cache miss with full interception enabled (no throw,
callback not the run-only sentinel, `cur_action = DEFAULT`, the skip-guard
stance inactive), the dispatch interprets the compiler callback's result by
case: internal failure propagates as a failure with no strategy change; the
skip-recursive sentinel sets the strategy to `(SKIP, SKIP)` and
default-executes; the budget-exhausted sentinel sets it to
`(RUN_ONLY, RUN_ONLY)` and default-executes; a concrete specialized routine
appends a cache entry and executes that routine; the no-specialization
sentinel sets the strategy to `(SKIP, DEFAULT)` and default-executes.  In
the skip-recursive and budget-exhausted cases the nested-call callback is
forced to the corresponding sentinel exactly when the pre-call recursive
action was `DEFAULT`. -/
theorem c1_cache_miss_callback_result_cases (inp : DispatchInput)
    (x : Option ExtraState)
    (hthrow : inp.throw_flag = false)
    (hcb : inp.callback ≠ .pyFalse)
    (hcur : (stratOf x).cur_action = .DEFAULT)
    (hlk : inp.lookup_result = .miss)
    (hsg : inp.skip_guard_eval_stance = false) :
    (inp.callback_result = .failure →
      (dynamo__custom_eval_frame inp x).outcome = .failed ∧
      stratOf (dynamo__custom_eval_frame inp x).extra = stratOf x) ∧
    (inp.callback_result = .skipCodeRecursive →
      (dynamo__custom_eval_frame inp x).outcome = .defaultRun ∧
      stratOf (dynamo__custom_eval_frame inp x).extra = ⟨.SKIP, .SKIP⟩ ∧
      (dynamo__custom_eval_frame inp x).recursive_callback =
        (if (stratOf x).recursive_action = .DEFAULT then .pyNone
         else inp.callback)) ∧
    (inp.callback_result = .cacheLimitHit →
      (dynamo__custom_eval_frame inp x).outcome = .defaultRun ∧
      stratOf (dynamo__custom_eval_frame inp x).extra = ⟨.RUN_ONLY, .RUN_ONLY⟩ ∧
      (dynamo__custom_eval_frame inp x).recursive_callback =
        (if (stratOf x).recursive_action = .DEFAULT then .pyFalse
         else inp.callback)) ∧
    (∀ g c t, inp.callback_result = .compiled g c t →
      (dynamo__custom_eval_frame inp x).outcome = .customRun c t ∧
      cacheOf (dynamo__custom_eval_frame inp x).extra = ⟨g, c, t⟩ :: cacheOf x ∧
      stratOf (dynamo__custom_eval_frame inp x).extra = stratOf x) ∧
    (inp.callback_result = .pyNone →
      (dynamo__custom_eval_frame inp x).outcome = .defaultRun ∧
      stratOf (dynamo__custom_eval_frame inp x).extra = ⟨.SKIP, .DEFAULT⟩) := by
  rcases inp with ⟨tf, cb, sg, lr, cr⟩
  simp_all
  subst hthrow hlk hsg
  rcases x with _ | ⟨ces, fs, ⟨ca, ra⟩⟩
  · cases cr <;>
      simp_all [dynamo__custom_eval_frame, stratOf, cacheOf, initExtraState]
  · simp_all [stratOf]
    subst hcur
    cases cr <;>
      simp_all [dynamo__custom_eval_frame, stratOf, cacheOf]

/-- Witness for C1: a first-ever call with a real callback, a cache miss and
a successful compilation installs one cache entry and runs the specialized
routine. -/
theorem c1_cache_miss_callback_result_cases_witness :
    (dynamo__custom_eval_frame ⟨false, .custom 0, false, .miss, .compiled 5 7 "t"⟩
        none).outcome = .customRun 7 "t" ∧
    cacheOf (dynamo__custom_eval_frame
        ⟨false, .custom 0, false, .miss, .compiled 5 7 "t"⟩ none).extra =
      [⟨5, 7, "t"⟩] := by
  have h := c1_cache_miss_callback_result_cases
    ⟨false, .custom 0, false, .miss, .compiled 5 7 "t"⟩ none rfl (by simp)
    (by simp [stratOf]) rfl rfl
  have h2 := h.2.2.2.1 5 7 "t" rfl
  exact ⟨h2.1, by simpa [cacheOf] using h2.2.1⟩

/-- C2, counterexample to the claim as stated: in `RUN_ONLY` strategy a cache
miss does not always result in default execution — when the unsafe
skip-guard-eval stance is active the dispatch fails with the diagnostic
error instead (the skip-guard check at line 172 precedes the run-only check
at line 182). -/
theorem c2_run_only_miss_counterexample :
    (stratOf (some ⟨[], 0, ⟨.RUN_ONLY, .RUN_ONLY⟩⟩)).cur_action = .RUN_ONLY ∧
    DispatchInput.lookup_result ⟨false, .custom 0, true, .miss, .pyNone⟩ = .miss ∧
    (dynamo__custom_eval_frame ⟨false, .custom 0, true, .miss, .pyNone⟩
        (some ⟨[], 0, ⟨.RUN_ONLY, .RUN_ONLY⟩⟩)).outcome ≠ .defaultRun ∧
    (dynamo__custom_eval_frame ⟨false, .custom 0, true, .miss, .pyNone⟩
        (some ⟨[], 0, ⟨.RUN_ONLY, .RUN_ONLY⟩⟩)).outcome = .failed := by
  decide

/-- C2 as amended: for a routine whose `cur_action` is `RUN_ONLY`, or calls
made with the run-only sentinel callback, the compiler callback is never
invoked — across any number of calls, including on cache miss — and a cache
miss results in default execution provided the unsafe skip-guard-eval
stance is inactive. -/
theorem c2_run_only_never_compiles :
    (∀ (inps : List DispatchInput) (e : ExtraState),
      e.strategy.cur_action = .RUN_ONLY →
      Event.callCompiler ∉ (runCalls inps (some e)).2) ∧
    (∀ (inps : List DispatchInput) (x : Option ExtraState),
      (∀ inp ∈ inps, DispatchInput.callback inp = .pyFalse) →
      Event.callCompiler ∉ (runCalls inps x).2) ∧
    (∀ (inp : DispatchInput) (x : Option ExtraState),
      inp.throw_flag = false →
      ((stratOf x).cur_action = .RUN_ONLY ∨ inp.callback = .pyFalse) →
      inp.lookup_result = .miss → inp.skip_guard_eval_stance = false →
      (dynamo__custom_eval_frame inp x).outcome = .defaultRun) := by
  refine ⟨?_, ?_, ?_⟩
  · intro inps e h
    exact (runCalls_frozen_of_cur_ne_default inps e (by simp [h])).2
  · intro inps x h
    exact (runCalls_no_compile_of_all_pyFalse inps x h).2
  · intro inp x hthrow hro hlk hsg
    rcases inp with ⟨tf, cb, sg, lr, cr⟩
    simp_all
    subst hthrow hlk hsg
    rcases x with _ | ⟨ces, fs, ⟨ca, ra⟩⟩
    · simp_all [stratOf]
      subst hro
      simp [dynamo__custom_eval_frame, evalDefaultEvents]
    · simp_all [stratOf]
      rcases hro with hro | hro
      · subst hro
        simp_all [dynamo__custom_eval_frame, evalDefaultEvents]
      · subst hro
        cases ca <;> simp_all [dynamo__custom_eval_frame, evalDefaultEvents]

/-- Witness for C2: a `RUN_ONLY` routine, called once on a miss with the
skip-guard stance inactive, invokes no compiler and default-executes. -/
theorem c2_run_only_never_compiles_witness :
    Event.callCompiler ∉
      (runCalls [⟨false, .custom 0, false, .miss, .pyNone⟩]
        (some ⟨[], 0, ⟨.RUN_ONLY, .RUN_ONLY⟩⟩)).2 ∧
    (dynamo__custom_eval_frame ⟨false, .custom 0, false, .miss, .pyNone⟩
        (some ⟨[], 0, ⟨.RUN_ONLY, .RUN_ONLY⟩⟩)).outcome = .defaultRun :=
  ⟨c2_run_only_never_compiles.1 _ _ rfl,
   c2_run_only_never_compiles.2.2 _ _ rfl (Or.inl (by simp [stratOf])) rfl rfl⟩

/-- C3, counterexample to the claim as stated: when the compiler returns the
skip-recursive sentinel, the dispatch does execute the default path after
the lookup, but the register at the moment that execution starts holds the
forced disabled sentinel, not the prior (caller-supplied) callback — so
"the prior callback is restored immediately after lookup, before executing
either path" fails on this exit path. -/
theorem c3_prior_restore_counterexample :
    Event.lookupCall ∈
      (dynamo__custom_eval_frame ⟨false, .custom 0, false, .miss, .skipCodeRecursive⟩
        none).events ∧
    Event.evalDefaultCall ∈
      (dynamo__custom_eval_frame ⟨false, .custom 0, false, .miss, .skipCodeRecursive⟩
        none).events ∧
    regBeforeEvalsOK (.custom 0) (.custom 0)
      (dynamo__custom_eval_frame ⟨false, .custom 0, false, .miss, .skipCodeRecursive⟩
        none).events = false := by
  decide

/-- C3 as amended: during guard lookup the process-wide callback register
holds the disabled sentinel — so no nested interception fires during guard
evaluation — and whenever the dispatch afterwards executes the default or
the specialized path, the register at the start of that execution holds the
invocation's recursive-callback value (not necessarily the prior callback,
which a strategy or sentinel result may have replaced). -/
theorem c3_lookup_bracketing (inp : DispatchInput) (x : Option ExtraState) :
    regOKDuringLookup inp.callback
      (dynamo__custom_eval_frame inp x).events = true ∧
    regBeforeEvalsOK (dynamo__custom_eval_frame inp x).recursive_callback
      inp.callback (dynamo__custom_eval_frame inp x).events = true := by
  rcases inp with ⟨tf, cb, sg, lr, cr⟩
  cases tf
  · rcases x with _ | ⟨ces, fs, ⟨ca, ra⟩⟩
    · cases lr <;> cases cr <;> cases sg <;>
        simp [dynamo__custom_eval_frame, initExtraState, regOKDuringLookup,
          regBeforeEvalsOK, regOKDuringLookup_evalDefault,
          regOKDuringLookup_evalCustom, regBeforeEvalsOK_evalDefault,
          regBeforeEvalsOK_evalCustom] <;>
        try (split_ifs <;>
          simp [regOKDuringLookup, regBeforeEvalsOK,
            regOKDuringLookup_evalDefault, regOKDuringLookup_evalCustom,
            regBeforeEvalsOK_evalDefault, regBeforeEvalsOK_evalCustom,
            regOKDuringLookup_restoreTail, regBeforeEvalsOK_restoreTail])
    · cases ca <;> cases lr <;> cases cr <;> cases sg <;>
        simp [dynamo__custom_eval_frame, regOKDuringLookup,
          regBeforeEvalsOK, regOKDuringLookup_evalDefault,
          regOKDuringLookup_evalCustom, regBeforeEvalsOK_evalDefault,
          regBeforeEvalsOK_evalCustom] <;>
        try (split_ifs <;>
          simp [regOKDuringLookup, regBeforeEvalsOK,
            regOKDuringLookup_evalDefault, regOKDuringLookup_evalCustom,
            regBeforeEvalsOK_evalDefault, regBeforeEvalsOK_evalCustom,
            regOKDuringLookup_restoreTail, regBeforeEvalsOK_restoreTail])
  · simp [dynamo__custom_eval_frame, regOKDuringLookup, regBeforeEvalsOK]

/-- C4: an unwind-flagged invocation is handed to default execution
immediately and untouched: the output is exactly a default run with the
extra state unchanged (none created), a trace containing only the default
evaluation (no lookup, no compiler call, no register write, no error), and
the recursive callback left at the caller-supplied value — regardless of
any prior strategy. -/
theorem c4_throw_flag_bypass (inp : DispatchInput) (x : Option ExtraState)
    (h : inp.throw_flag = true) :
    dynamo__custom_eval_frame inp x =
      ⟨.defaultRun, x, [.evalDefaultCall], inp.callback⟩ := by
  simp [dynamo__custom_eval_frame, h]

/-- Witness for C4: an unwinding call on a routine already in `SKIP`
strategy still default-executes with nothing mutated. -/
theorem c4_throw_flag_bypass_witness :
    dynamo__custom_eval_frame ⟨true, .custom 2, false, .miss, .pyNone⟩
        (some ⟨[], 0, ⟨.SKIP, .SKIP⟩⟩) =
      ⟨.defaultRun, some ⟨[], 0, ⟨.SKIP, .SKIP⟩⟩, [.evalDefaultCall], .custom 2⟩ :=
  c4_throw_flag_bypass ⟨true, .custom 2, false, .miss, .pyNone⟩
    (some ⟨[], 0, ⟨.SKIP, .SKIP⟩⟩) rfl

/-- C5: whenever guard lookup reports a hit, the dispatch never invokes the
compiler callback, the matched code object and its trace label are threaded
unchanged into the custom-execution outcome, and neither the cache nor the
strategy is mutated. -/
theorem c5_cache_hit_purity (inp : DispatchInput) (x : Option ExtraState)
    (code : Nat) (t : String)
    (hthrow : inp.throw_flag = false)
    (hfast : ¬(inp.callback = .pyFalse ∧ x = none))
    (hskip : (stratOf x).cur_action ≠ .SKIP)
    (hlk : inp.lookup_result = .hit code t) :
    (dynamo__custom_eval_frame inp x).outcome = .customRun code t ∧
    Event.callCompiler ∉ (dynamo__custom_eval_frame inp x).events ∧
    cacheOf (dynamo__custom_eval_frame inp x).extra = cacheOf x ∧
    stratOf (dynamo__custom_eval_frame inp x).extra = stratOf x := by
  rcases inp with ⟨tf, cb, sg, lr, cr⟩
  simp_all
  subst hthrow hlk
  rcases x with _ | ⟨ces, fs, ⟨ca, ra⟩⟩
  · simp_all [dynamo__custom_eval_frame, evalCustomEvents, stratOf, cacheOf,
      initExtraState]
    try (split_ifs <;> simp_all)
  · simp_all [stratOf]
    cases ca <;>
      simp_all [dynamo__custom_eval_frame, evalCustomEvents, stratOf, cacheOf] <;>
      try (split_ifs <;> simp_all)

/-- Witness for C5: a hit on an established entry runs the cached code with
its label. -/
theorem c5_cache_hit_purity_witness :
    (dynamo__custom_eval_frame ⟨false, .custom 0, false, .hit 3 "h", .pyNone⟩
        (some ⟨[⟨1, 3, "h"⟩], 0, ⟨.DEFAULT, .DEFAULT⟩⟩)).outcome =
      .customRun 3 "h" :=
  (c5_cache_hit_purity ⟨false, .custom 0, false, .hit 3 "h", .pyNone⟩
    (some ⟨[⟨1, 3, "h"⟩], 0, ⟨.DEFAULT, .DEFAULT⟩⟩) 3 "h" rfl (by simp)
    (by simp [stratOf]) rfl).1

/-- C6: a cache miss while the unsafe skip-guard-eval stance is active makes
the dispatch fail immediately with the diagnostic error: the trace is
exactly lookup (under the disabled register), the raised error and the
frame cleanup — so the compiler callback is not invoked and nothing is
retried or downgraded — and neither the strategy nor the cache is
altered. -/
theorem c6_skip_guard_miss_diagnostic (inp : DispatchInput) (x : Option ExtraState)
    (hthrow : inp.throw_flag = false)
    (hfast : ¬(inp.callback = .pyFalse ∧ x = none))
    (hskip : (stratOf x).cur_action ≠ .SKIP)
    (hlk : inp.lookup_result = .miss)
    (hsg : inp.skip_guard_eval_stance = true) :
    (dynamo__custom_eval_frame inp x).outcome = .failed ∧
    (dynamo__custom_eval_frame inp x).events =
      [.setCallback .pyNone, .lookupCall, .raiseError, .clearOldFrame] ∧
    stratOf (dynamo__custom_eval_frame inp x).extra = stratOf x ∧
    cacheOf (dynamo__custom_eval_frame inp x).extra = cacheOf x := by
  rcases inp with ⟨tf, cb, sg, lr, cr⟩
  simp_all
  subst hthrow hlk hsg
  rcases x with _ | ⟨ces, fs, ⟨ca, ra⟩⟩
  · simp_all [dynamo__custom_eval_frame, stratOf, cacheOf, initExtraState]
  · simp_all [stratOf]
    cases ca <;> simp_all [dynamo__custom_eval_frame, stratOf, cacheOf]

/-- Witness for C6: a miss under the active skip-guard stance fails. -/
theorem c6_skip_guard_miss_diagnostic_witness :
    (dynamo__custom_eval_frame ⟨false, .custom 0, true, .miss, .pyNone⟩
        (some ⟨[], 0, ⟨.RUN_ONLY, .RUN_ONLY⟩⟩)).outcome = .failed :=
  (c6_skip_guard_miss_diagnostic ⟨false, .custom 0, true, .miss, .pyNone⟩
    (some ⟨[], 0, ⟨.RUN_ONLY, .RUN_ONLY⟩⟩) rfl (by simp) (by simp [stratOf])
    rfl rfl).1

/-- C7: when the compiler callback fails internally, the dispatch propagates
the failure for that invocation only: the trace ends right after the
compiler call (only the frame cleanup follows), the callback register is
deliberately left at the disabled sentinel — custom handling is not
re-enabled on this call path — and the routine's strategy and cache are
untouched, so other state remains usable. -/
theorem c7_compiler_failure_no_reenable (inp : DispatchInput) (x : Option ExtraState)
    (hthrow : inp.throw_flag = false)
    (hcb : inp.callback ≠ .pyFalse)
    (hcur : (stratOf x).cur_action = .DEFAULT)
    (hlk : inp.lookup_result = .miss)
    (hsg : inp.skip_guard_eval_stance = false)
    (hres : inp.callback_result = .failure) :
    (dynamo__custom_eval_frame inp x).outcome = .failed ∧
    (dynamo__custom_eval_frame inp x).events =
      [.setCallback .pyNone, .lookupCall, .callCompiler, .clearOldFrame] ∧
    regAfter inp.callback (dynamo__custom_eval_frame inp x).events = .pyNone ∧
    stratOf (dynamo__custom_eval_frame inp x).extra = stratOf x ∧
    cacheOf (dynamo__custom_eval_frame inp x).extra = cacheOf x := by
  rcases inp with ⟨tf, cb, sg, lr, cr⟩
  simp_all
  subst hthrow hlk hsg hres
  rcases x with _ | ⟨ces, fs, ⟨ca, ra⟩⟩
  · simp_all [dynamo__custom_eval_frame, stratOf, cacheOf, initExtraState, regAfter]
  · simp_all [stratOf]
    simp_all [dynamo__custom_eval_frame, stratOf, cacheOf, regAfter]

/-- Witness for C7: a failing compiler callback on a first miss leaves the
register disabled and the dispatch failed. -/
theorem c7_compiler_failure_no_reenable_witness :
    (dynamo__custom_eval_frame ⟨false, .custom 0, false, .miss, .failure⟩ none).outcome
        = .failed ∧
    regAfter (.custom 0)
        (dynamo__custom_eval_frame ⟨false, .custom 0, false, .miss, .failure⟩ none).events
      = .pyNone := by
  have h := c7_compiler_failure_no_reenable ⟨false, .custom 0, false, .miss, .failure⟩
    none rfl (by simp) (by simp [stratOf]) rfl rfl rfl
  exact ⟨h.1, h.2.2.1⟩

/-- C8, counterexample to the claim as stated: with the Interception
Callback equal to the disabled sentinel (`Py_None`) and no extra state, the
dispatch does create extra state (and even invokes the compiler callback):
the fast path at lines 98-102 tests the run-only sentinel `Py_False`, not
the disabled sentinel. -/
theorem c8_disabled_callback_counterexample :
    DispatchInput.callback ⟨false, .pyNone, false, .miss, .pyNone⟩ = .pyNone ∧
    (dynamo__custom_eval_frame ⟨false, .pyNone, false, .miss, .pyNone⟩ none).extra ≠
      none ∧
    Event.callCompiler ∈
      (dynamo__custom_eval_frame ⟨false, .pyNone, false, .miss, .pyNone⟩ none).events := by
  decide

/-- C8 as amended: if the Interception Callback equals the run-only sentinel
and no extra state exists yet for the routine, the dispatch default-executes
without creating any extra state — a pure pass-through fast path with no
guard lookup and no compiler call. -/
theorem c8_run_only_empty_cache_fast_path (inp : DispatchInput)
    (h : inp.callback = .pyFalse) :
    (dynamo__custom_eval_frame inp none).extra = none ∧
    (dynamo__custom_eval_frame inp none).outcome = .defaultRun ∧
    Event.lookupCall ∉ (dynamo__custom_eval_frame inp none).events ∧
    Event.callCompiler ∉ (dynamo__custom_eval_frame inp none).events := by
  rcases inp with ⟨tf, cb, sg, lr, cr⟩
  subst h
  cases tf <;> simp_all [dynamo__custom_eval_frame, evalDefaultEvents]

/-- Witness for C8 as amended: a run-only call on a never-seen routine
passes through. -/
theorem c8_run_only_empty_cache_fast_path_witness :
    (dynamo__custom_eval_frame ⟨false, .pyFalse, false, .miss, .pyNone⟩ none).extra
        = none ∧
    (dynamo__custom_eval_frame ⟨false, .pyFalse, false, .miss, .pyNone⟩ none).outcome
        = .defaultRun := by
  have h := c8_run_only_empty_cache_fast_path ⟨false, .pyFalse, false, .miss, .pyNone⟩ rfl
  exact ⟨h.1, h.2.1⟩

/-- C9: across every possible invocation the strategy changes only from a
`DEFAULT` current action, and only to `(SKIP, SKIP)` on the skip-recursive
sentinel, `(RUN_ONLY, RUN_ONLY)` on the budget-exhausted sentinel, or
`(SKIP, DEFAULT)` on the no-specialization sentinel — in particular a
`SKIP` or `RUN_ONLY` current action is never reverted to `DEFAULT` — and a
routine whose current action is already `SKIP` or `RUN_ONLY` keeps its
entire extra state unchanged through any number of subsequent calls. -/
theorem c9_strategy_transitions_terminal :
    (∀ (inp : DispatchInput) (x : Option ExtraState),
      stratOf (dynamo__custom_eval_frame inp x).extra = stratOf x ∨
      ((stratOf x).cur_action = .DEFAULT ∧
        ((inp.callback_result = .skipCodeRecursive ∧
          stratOf (dynamo__custom_eval_frame inp x).extra = ⟨.SKIP, .SKIP⟩) ∨
         (inp.callback_result = .cacheLimitHit ∧
          stratOf (dynamo__custom_eval_frame inp x).extra =
            ⟨.RUN_ONLY, .RUN_ONLY⟩) ∨
         (inp.callback_result = .pyNone ∧
          stratOf (dynamo__custom_eval_frame inp x).extra =
            ⟨.SKIP, .DEFAULT⟩)))) ∧
    (∀ (inps : List DispatchInput) (e : ExtraState),
      e.strategy.cur_action ≠ .DEFAULT →
      (runCalls inps (some e)).1 = some e) := by
  constructor
  · intro inp x
    rcases inp with ⟨tf, cb, sg, lr, cr⟩
    rcases x with _ | ⟨ces, fs, ⟨ca, ra⟩⟩
    · cases tf
      · cases lr <;> cases sg <;> cases cr <;>
          simp_all [dynamo__custom_eval_frame, stratOf, initExtraState] <;>
          try (split_ifs <;> simp_all [stratOf, initExtraState]) <;> try tauto
      · simp [dynamo__custom_eval_frame, stratOf]
    · cases tf
      · cases ca <;> cases lr <;> cases sg <;> cases cr <;>
          simp_all [dynamo__custom_eval_frame, stratOf, initExtraState] <;>
          try (split_ifs <;> simp_all [stratOf, initExtraState]) <;> try tauto
      · simp [dynamo__custom_eval_frame, stratOf]
  · intro inps e h
    exact (runCalls_frozen_of_cur_ne_default inps e h).1

/-- Witness for C9: a routine in `(SKIP, SKIP)` strategy is unchanged by a
further call, even one whose oracle carries a successful compilation. -/
theorem c9_strategy_transitions_terminal_witness :
    (runCalls [⟨false, .custom 0, false, .miss, .compiled 1 2 "t"⟩]
        (some ⟨[], 0, ⟨.SKIP, .SKIP⟩⟩)).1 = some ⟨[], 0, ⟨.SKIP, .SKIP⟩⟩ :=
  c9_strategy_transitions_terminal.2 _ _ (by simp)

/-- C10: when the stored strategy has `cur_action = DEFAULT` but a non-
`DEFAULT` stored `recursive_action` (e.g. set externally), the stored
recursive action is ignored when choosing the nested-call callback: the
recursive callback stays the caller-supplied one — the forcing at lines
111-117 requires `cur_action != DEFAULT`, and the sentinel-result forcing
at lines 209 and 218 requires the pre-call recursive action to be
`DEFAULT`. -/
theorem c10_stored_recursive_action_ignored (inp : DispatchInput)
    (x : Option ExtraState)
    (hcur : (stratOf x).cur_action = .DEFAULT)
    (hrec : (stratOf x).recursive_action ≠ .DEFAULT) :
    (dynamo__custom_eval_frame inp x).recursive_callback = inp.callback := by
  rcases inp with ⟨tf, cb, sg, lr, cr⟩
  rcases x with _ | ⟨ces, fs, ⟨ca, ra⟩⟩
  · simp_all [stratOf]
  · simp_all [stratOf]
    subst hcur
    cases tf <;> cases lr <;> cases sg <;> cases cr <;>
      simp_all [dynamo__custom_eval_frame] <;>
      try (split_ifs <;> simp_all)

/-- Witness for C10: with strategy `(DEFAULT, SKIP)` and even a
skip-recursive compiler result, nested calls still run under the
caller-supplied callback. -/
theorem c10_stored_recursive_action_ignored_witness :
    (dynamo__custom_eval_frame ⟨false, .custom 3, false, .miss, .skipCodeRecursive⟩
        (some ⟨[], 0, ⟨.DEFAULT, .SKIP⟩⟩)).recursive_callback = .custom 3 :=
  c10_stored_recursive_action_ignored
    ⟨false, .custom 3, false, .miss, .skipCodeRecursive⟩
    (some ⟨[], 0, ⟨.DEFAULT, .SKIP⟩⟩) (by simp [stratOf]) (by simp [stratOf])

end EvalFrame
